import Mathlib

set_option autoImplicit false

/-!
Shallow embedding of `scopus/scopus_search.py` (class `ScopusSearch`).

JSON values are modelled by the mutual inductive `Json`; Python's dynamic
lookup/iteration semantics are modelled by functions returning
`Except PyErr _`, where `PyErr.keyError` stands for Python's `KeyError`
(the only exception the source catches) and `PyErr.typeError` stands for
any other lookup/iteration exception (`TypeError` etc.), which the source
never catches.
-/

mutual

inductive Json where
  | null : Json
  | bool : Bool → Json
  | num : Int → Json
  | str : String → Json
  | arr : JsonArr → Json
  | obj : JsonObj → Json
  deriving Repr

inductive JsonArr where
  | nil : JsonArr
  | cons : Json → JsonArr → JsonArr
  deriving Repr

inductive JsonObj where
  | nil : JsonObj
  | cons : String → Json → JsonObj → JsonObj
  deriving Repr

end

def JsonArr.toList : JsonArr → List Json
  | .nil => []
  | .cons x xs => x :: xs.toList

def JsonArr.ofList : List Json → JsonArr
  | [] => .nil
  | x :: xs => .cons x (JsonArr.ofList xs)

def JsonObj.ofList : List (String × Json) → JsonObj
  | [] => .nil
  | kv :: rest => .cons kv.1 kv.2 (JsonObj.ofList rest)

def JsonObj.lookup (k : String) : JsonObj → Option Json
  | .nil => none
  | .cons k' v tl => if k' = k then some v else tl.lookup k

def JsonObj.length : JsonObj → Nat
  | .nil => 0
  | .cons _ _ tl => tl.length + 1

def Json.mkArr (l : List Json) : Json := .arr (JsonArr.ofList l)

def Json.mkObj (l : List (String × Json)) : Json := .obj (JsonObj.ofList l)

def Json.isArr : Json → Bool
  | .arr _ => true
  | _ => false

inductive PyErr where
  | keyError : PyErr
  | typeError : PyErr
  deriving Repr, DecidableEq

/-- Python subscription `j[k]` with a string key: succeeds only on a dict
that has the key (`KeyError` when the key is missing, `TypeError` on
anything that is not a dict). -/
def pyGetItem : Json → String → Except PyErr Json
  | .obj fields, k =>
    match fields.lookup k with
    | some v => .ok v
    | none => .error .keyError
  | _, _ => .error .typeError

/-- Python `j.get(k, default)`: never raises `KeyError`; on a non-dict the
attribute access itself fails (not a `KeyError`). -/
def pyGet (j : Json) (k : String) (default : Json) : Except PyErr Json :=
  match j with
  | .obj fields => .ok ((fields.lookup k).getD default)
  | _ => .error .typeError

/-- Python iteration `for x in j`: the `author`/`afid` values the source
iterates are JSON arrays; iterating any other value is modelled as an
uncaught (non-`KeyError`) failure. -/
def pyIter : Json → Except PyErr (List Json)
  | .arr a => .ok a.toList
  | _ => .error .typeError

/-- `str.join` accepts only strings; anything else is a `TypeError`. -/
def pyStr : Json → Except PyErr String
  | .str s => .ok s
  | _ => .error .typeError

/-- A Python list comprehension / accumulation loop over `xs`: the first
exception aborts the whole computation. -/
def mapExc {α β : Type} (f : α → Except PyErr β) : List α → Except PyErr (List β)
  | [] => .ok []
  | x :: xs =>
    match f x with
    | .error e => .error e
    | .ok y =>
      match mapExc f xs with
      | .error e => .error e
      | .ok ys => .ok (y :: ys)

mutual

/-- Python `==` on JSON values: dict comparison ignores key order
(equal size and every key of the left dict maps to an equal value in the
right one), list comparison is pointwise. -/
def pyEq : Json → Json → Bool
  | .null, .null => true
  | .bool a, .bool b => a == b
  | .num a, .num b => a == b
  | .str a, .str b => a == b
  | .arr a, .arr b => pyEqArr a b
  | .obj a, .obj b => a.length == b.length && pyEqSub a b
  | _, _ => false

def pyEqArr : JsonArr → JsonArr → Bool
  | .nil, .nil => true
  | .cons x xs, .cons y ys => pyEq x y && pyEqArr xs ys
  | _, _ => false

def pyEqSub : JsonObj → JsonObj → Bool
  | .nil, _ => true
  | .cons k v tl, b =>
    (match b.lookup k with
     | some w => pyEq v w
     | none => false) && pyEqSub tl b

end

/-- The deduplication loop of `ScopusSearch.results`:
`authors = []; for i in ...: if i not in authors: authors.append(i)`.
Membership uses Python `==` (element on the left, probe on the right,
as in CPython's `list.__contains__`). -/
def dedupLoop (acc : List Json) : List Json → List Json
  | [] => acc
  | i :: rest =>
    if acc.any (fun a => pyEq a i) then dedupLoop acc rest
    else dedupLoop (acc ++ [i]) rest

/-- `sep.join([...])` over already-extracted JSON values. -/
def pyJoin (sep : String) (vals : List Json) : Except PyErr String :=
  match mapExc pyStr vals with
  | .error e => .error e
  | .ok strs => .ok (String.intercalate sep strs)

/-- `sep.join([d[k] for d in authors])`. -/
def joinAuthField (authors : List Json) (k : String) (sep : String) :
    Except PyErr String :=
  match mapExc (fun d => pyGetItem d k) authors with
  | .error e => .error e
  | .ok vals => pyJoin sep vals

/-- One author's affiliation-id group:
`aff = auth.get('afid', []); if not isinstance(aff, list): aff = [aff];
'-'.join([d['$'] for d in aff])`. -/
def affGroup (auth : Json) : Except PyErr String :=
  match pyGet auth "afid" (Json.arr .nil) with
  | .error e => .error e
  | .ok aff =>
    match pyIter (if aff.isArr then aff else Json.arr (.cons aff .nil)) with
    | .error e => .error e
    | .ok ids =>
      match mapExc (fun d => pyGetItem d "$") ids with
      | .error e => .error e
      | .ok vals => pyJoin "-" vals

/-- The body of the `try` block applied to the deduplicated author list:
builds `authname`, `authid` and `afid` (the latter normalised to absent
when empty). -/
def deriveFromAuthors (authors : List Json) :
    Except PyErr (Option String × Option String × Option String) :=
  match joinAuthField authors "authname" ";" with
  | .error e => .error e
  | .ok authname =>
    match joinAuthField authors "authid" ";" with
    | .error e => .error e
    | .ok authid =>
      match mapExc affGroup authors with
      | .error e => .error e
      | .ok affs =>
        .ok (some authname, some authid,
             if String.intercalate ";" affs = "" then none
             else some (String.intercalate ";" affs))

/-- The whole `try` block of `ScopusSearch.results` for one item:
look up `item['author']`, iterate it, deduplicate, then derive the three
author fields. -/
def deriveAuthorFields (item : Json) :
    Except PyErr (Option String × Option String × Option String) :=
  match pyGetItem item "author" with
  | .error e => .error e
  | .ok aj =>
    match pyIter aj with
    | .error e => .error e
    | .ok l => deriveFromAuthors (dedupLoop [] l)

/-- `try: ... except KeyError: authname = None; authid = None; afid = None`:
only `KeyError` is caught; any other exception propagates. -/
def authorFieldsCaught (item : Json) :
    Except PyErr (Option String × Option String × Option String) :=
  match deriveAuthorFields item with
  | .ok v => .ok v
  | .error .keyError => .ok (none, none, none)
  | .error .typeError => .error .typeError

/-- The namedtuple `Document` of `ScopusSearch.results`. `eid`, `title`
and `openaccess` are looked up with `item[...]` (required), every other
direct field with `item.get(...)` (optional). -/
structure Document where
  eid : Json
  doi : Option Json
  pii : Option Json
  title : Json
  subtype : Option Json
  creator : Option Json
  authname : Option String
  authid : Option String
  afid : Option String
  coverDate : Option Json
  coverDisplayDate : Option Json
  publicationName : Option Json
  issn : Option Json
  source_id : Option Json
  aggregationType : Option Json
  volume : Option Json
  issueIdentifier : Option Json
  pageRange : Option Json
  citedby_count : Option Json
  openaccess : Json
  deriving Repr

/-- `item.get(k)` on the (necessarily dict) item: optional projection. -/
def jsonGetOpt (item : Json) (k : String) : Option Json :=
  match item with
  | .obj fields => fields.lookup k
  | _ => none

/-- One iteration of the loop in `ScopusSearch.results`: author-field
derivation (with its `except KeyError`), then construction of the
namedtuple, whose required lookups `item['eid']`, `item['dc:title']`,
`item['openaccess']` can raise an uncaught `KeyError`. -/
def mapDocument (item : Json) : Except PyErr Document :=
  match authorFieldsCaught item with
  | .error e => .error e
  | .ok (authname, authid, afid) =>
    match pyGetItem item "eid" with
    | .error e => .error e
    | .ok eid =>
      match pyGetItem item "dc:title" with
      | .error e => .error e
      | .ok title =>
        match pyGetItem item "openaccess" with
        | .error e => .error e
        | .ok openaccess =>
          .ok { eid := eid
                doi := jsonGetOpt item "prism:doi"
                pii := jsonGetOpt item "pii"
                title := title
                subtype := jsonGetOpt item "subtype"
                creator := jsonGetOpt item "dc:creator"
                authname := authname
                authid := authid
                afid := afid
                coverDate := jsonGetOpt item "prism:coverDate"
                coverDisplayDate := jsonGetOpt item "prism:coverDisplayDate"
                publicationName := jsonGetOpt item "prism:publicationName"
                issn := jsonGetOpt item "prism:issn"
                source_id := jsonGetOpt item "source-id"
                aggregationType := jsonGetOpt item "prism:aggregationType"
                volume := jsonGetOpt item "prism:volume"
                issueIdentifier := jsonGetOpt item "prism:issueIdentifier"
                pageRange := jsonGetOpt item "prism:pageRange"
                citedby_count := jsonGetOpt item "citedby-count"
                openaccess := openaccess }

/-- `ScopusSearch.results`: map every stored raw item to a `Document`;
an uncaught exception aborts the whole property access. -/
def results (items : List Json) : Except PyErr (List Document) :=
  mapExc mapDocument items

/-- `ScopusSearch.get_eids`: `[d['eid'] for d in self._json]`. -/
def get_eids (items : List Json) : Except PyErr (List Json) :=
  mapExc (fun d => pyGetItem d "eid") items

/-- `ScopusSearch.EIDS`: emits one deprecation warning, then returns
`self.get_eids()`. Modelled as the pair (warnings emitted, value). -/
def EIDS (items : List Json) : List String × Except PyErr (List Json) :=
  (["Outdated property, will be removed in a future release.  Please use get_eids() instead.  For details see https://scopus.readthedocs.io/en/latest/tips.html#migration-guide-to-0-x-to-1-x."],
   get_eids items)

/-!
The cache key of `ScopusSearch.__init__`:
`hashlib.md5(query.encode('utf8')).hexdigest()`.  MD5 (RFC 1321) over a
byte list, with 32-bit words as `Nat` reduced mod `2^32`.
-/

def u32 (n : Nat) : Nat := n % 4294967296

def not32 (x : Nat) : Nat := x ^^^ 4294967295

def rotl32 (x n : Nat) : Nat := u32 ((x <<< n) ||| (x >>> (32 - n)))

def md5K : List Nat :=
  [3614090360, 3905402710, 606105819, 3250441966, 4118548399, 1200080426,
   2821735955, 4249261313, 1770035416, 2336552879, 4294925233, 2304563134,
   1804603682, 4254626195, 2792965006, 1236535329, 4129170786, 3225465664,
   643717713, 3921069994, 3593408605, 38016083, 3634488961, 3889429448,
   568446438, 3275163606, 4107603335, 1163531501, 2850285829, 4243563512,
   1735328473, 2368359562, 4294588738, 2272392833, 1839030562, 4259657740,
   2763975236, 1272893353, 4139469664, 3200236656, 681279174, 3936430074,
   3572445317, 76029189, 3654602809, 3873151461, 530742520, 3299628645,
   4096336452, 1126891415, 2878612391, 4237533241, 1700485571, 2399980690,
   4293915773, 2240044497, 1873313359, 4264355552, 2734768916, 1309151649,
   4149444226, 3174756917, 718787259, 3951481745]

def md5S : List Nat :=
  [7, 12, 17, 22, 7, 12, 17, 22, 7, 12, 17, 22, 7, 12, 17, 22,
   5, 9, 14, 20, 5, 9, 14, 20, 5, 9, 14, 20, 5, 9, 14, 20,
   4, 11, 16, 23, 4, 11, 16, 23, 4, 11, 16, 23, 4, 11, 16, 23,
   6, 10, 15, 21, 6, 10, 15, 21, 6, 10, 15, 21, 6, 10, 15, 21]

/-- Little-endian byte decomposition, `k` bytes. -/
def leBytes (n k : Nat) : List Nat :=
  (List.range k).map (fun i => (n >>> (8 * i)) % 256)

/-- MD5 padding: `0x80`, zeros to 56 mod 64, then the bit length as a
little-endian 64-bit quantity. -/
def md5pad (msg : List Nat) : List Nat :=
  msg ++ [128] ++ List.replicate ((119 - msg.length % 64) % 64) 0
      ++ leBytes (msg.length * 8) 8

def md5word (block : List Nat) (g : Nat) : Nat :=
  block.getD (4 * g) 0 + 256 * block.getD (4 * g + 1) 0
    + 65536 * block.getD (4 * g + 2) 0 + 16777216 * block.getD (4 * g + 3) 0

/-- Round function and message index of round `i`. -/
def md5F (i B C D : Nat) : Nat × Nat :=
  if i < 16 then ((B &&& C) ||| (not32 B &&& D), i)
  else if i < 32 then ((D &&& B) ||| (not32 D &&& C), (5 * i + 1) % 16)
  else if i < 48 then (B ^^^ C ^^^ D, (3 * i + 5) % 16)
  else (C ^^^ (B ||| not32 D), (7 * i) % 16)

def md5Step (block : List Nat) (st : Nat × Nat × Nat × Nat) (i : Nat) :
    Nat × Nat × Nat × Nat :=
  let (A, B, C, D) := st
  let (F, g) := md5F i B C D
  let Fv := u32 (F + A + md5K.getD i 0 + md5word block g)
  (D, u32 (B + rotl32 Fv (md5S.getD i 0)), B, C)

def md5Block (st : Nat × Nat × Nat × Nat) (block : List Nat) :
    Nat × Nat × Nat × Nat :=
  let r := (List.range 64).foldl (md5Step block) st
  (u32 (st.1 + r.1), u32 (st.2.1 + r.2.1), u32 (st.2.2.1 + r.2.2.1),
   u32 (st.2.2.2 + r.2.2.2))

def md5Digest (msg : List Nat) : Nat × Nat × Nat × Nat :=
  let padded := md5pad msg
  (List.range (padded.length / 64)).foldl
    (fun st i => md5Block st ((padded.drop (64 * i)).take 64))
    (1732584193, 4023233417, 2562383102, 271733878)

/-- Lowercase hex digit: 48 is the code of the zero digit, 87 + 10 that
of the letter a. -/
def hexChar (n : Nat) : Char :=
  if n < 10 then Char.ofNat (48 + n) else Char.ofNat (87 + n)

def byteHex (b : Nat) : String := String.mk [hexChar (b / 16), hexChar (b % 16)]

/-- Hex of one state word, little-endian byte order (as `hexdigest`). -/
def wordHexLE (w : Nat) : String := String.join ((leBytes w 4).map byteHex)

def md5hex (msg : List Nat) : String :=
  let d := md5Digest msg
  wordHexLE d.1 ++ wordHexLE d.2.1 ++ wordHexLE d.2.2.1 ++ wordHexLE d.2.2.2

/-- UTF-8 encoding of one character (`str.encode('utf8')`). -/
def utf8Char (c : Char) : List Nat :=
  let n := c.toNat
  if n < 128 then [n]
  else if n < 2048 then [192 ||| (n >>> 6), 128 ||| (n % 64)]
  else if n < 65536 then
    [224 ||| (n >>> 12), 128 ||| ((n >>> 6) % 64), 128 ||| (n % 64)]
  else
    [240 ||| (n >>> 18), 128 ||| ((n >>> 12) % 64), 128 ||| ((n >>> 6) % 64),
     128 ||| (n % 64)]

def utf8Bytes (s : String) : List Nat := (s.data.map utf8Char).flatten

/-- The cache file path computed in `ScopusSearch.__init__`:
`join(config.get('Directories', 'ScopusSearch'), hashlib.md5(query.encode('utf8')).hexdigest())`;
`os.path.join` of a directory and a relative file name inserts `/`. -/
def qfile (cacheRoot : String) (query : String) : String :=
  cacheRoot ++ "/" ++ md5hex (utf8Bytes query)

/-!
The paged retrieval loop lives in the `Search` base class
(`scopus.classes.Search`), which is not among this repository's source
files; it is modelled from the spec below.
-/

inductive FetchError where
  | resultSetTooLarge : FetchError
  deriving Repr, DecidableEq

structure RetrieveOutcome where
  result : Except FetchError (List Json)
  cacheAfter : Option (List Json)
  offsetsRequested : List Nat
  deriving Repr

/-- Modelled from the spec: the retrieval/cache loop of the `Search` base
class (`scopus.classes.Search`), missing from this repository's sources.
Per the spec: with a cache entry and no refresh, the cached items are
returned with no network request and no write; otherwise the first page
(offset 0) is requested and its envelope reports the total result count;
if that total exceeds `maxEntries`, retrieval fails with
`ResultSetTooLargeError` before paging proceeds and without any cache
write; otherwise pages of size `count` are requested sequentially until
the cumulative count reaches the total, and the merged list is written
wholesale to the cache entry.  `fetchPage` maps a start offset to the
page's items and the reported total. -/
def retrieve (cache : Option (List Json)) (refresh : Bool)
    (maxEntries count : Nat) (fetchPage : Nat → List Json × Nat) :
    RetrieveOutcome :=
  match cache, refresh with
  | some items, false => ⟨.ok items, some items, []⟩
  | _, _ =>
    let first := fetchPage 0
    let total := first.2
    if maxEntries < total then
      ⟨.error .resultSetTooLarge, cache, [0]⟩
    else
      let numPages := (total + count - 1) / count
      let offsets := (List.range numPages).map (fun i => i * count)
      let items := first.1 ++ ((offsets.drop 1).map (fun off => (fetchPage off).1)).flatten
      ⟨.ok items, some items, offsets⟩

/-- `ScopusSearch.__init__` invokes the base-class retrieval with
`max_entries=5000, count=25, start=0`. -/
def scopusRetrieve (cache : Option (List Json)) (refresh : Bool)
    (fetchPage : Nat → List Json × Nat) : RetrieveOutcome :=
  retrieve cache refresh 5000 25 fetchPage

/-! Concrete raw items used to instantiate the theorems below. -/

def exAuthorA : Json := Json.mkObj
  [("authname", Json.str "Smith J."), ("authid", Json.str "100"),
   ("afid", Json.mkArr [Json.mkObj [("$", Json.str "10")],
                        Json.mkObj [("$", Json.str "20")]])]

def exAuthorB : Json := Json.mkObj
  [("authname", Json.str "Doe A."), ("authid", Json.str "200"),
   ("afid", Json.mkArr [Json.mkObj [("$", Json.str "30")],
                        Json.mkObj [("$", Json.str "40")]])]

def exItemGood : Json := Json.mkObj
  [("eid", Json.str "2-s2.0-1"), ("dc:title", Json.str "Title One"),
   ("openaccess", Json.str "1"),
   ("author", Json.mkArr [exAuthorA, exAuthorB])]

/-- An item missing the required `dc:title` field. -/
def exItemNoTitle : Json := Json.mkObj
  [("eid", Json.str "2-s2.0-0"), ("openaccess", Json.str "0"),
   ("author", Json.mkArr [exAuthorA])]

/-- An item with no `author` field at all. -/
def exItemNoAuthor : Json := Json.mkObj
  [("eid", Json.str "2-s2.0-2"), ("dc:title", Json.str "Title Two"),
   ("openaccess", Json.str "0")]

/-- An item whose author list repeats `exAuthorA` verbatim. -/
def exItemDup : Json := Json.mkObj
  [("eid", Json.str "2-s2.0-3"), ("dc:title", Json.str "Title Three"),
   ("openaccess", Json.str "1"),
   ("author", Json.mkArr [exAuthorA, exAuthorA, exAuthorB])]

/-- The document the mapper produces from `exItemGood`. -/
def exDocGood : Document :=
  { eid := Json.str "2-s2.0-1", doi := none, pii := none,
    title := Json.str "Title One", subtype := none, creator := none,
    authname := some "Smith J.;Doe A.", authid := some "100;200",
    afid := some "10-20;30-40", coverDate := none, coverDisplayDate := none,
    publicationName := none, issn := none, source_id := none,
    aggregationType := none, volume := none, issueIdentifier := none,
    pageRange := none, citedby_count := none, openaccess := Json.str "1" }

/-- The document the mapper produces from `exItemDup` (the duplicated
author counts once). -/
def exDocDup : Document :=
  { eid := Json.str "2-s2.0-3", doi := none, pii := none,
    title := Json.str "Title Three", subtype := none, creator := none,
    authname := some "Smith J.;Doe A.", authid := some "100;200",
    afid := some "10-20;30-40", coverDate := none, coverDisplayDate := none,
    publicationName := none, issn := none, source_id := none,
    aggregationType := none, volume := none, issueIdentifier := none,
    pageRange := none, citedby_count := none, openaccess := Json.str "1" }

/-- The document the mapper produces from `exItemNoAuthor`. -/
def exDocNoAuthor : Document :=
  { eid := Json.str "2-s2.0-2", doi := none, pii := none,
    title := Json.str "Title Two", subtype := none, creator := none,
    authname := none, authid := none, afid := none, coverDate := none,
    coverDisplayDate := none, publicationName := none, issn := none,
    source_id := none, aggregationType := none, volume := none,
    issueIdentifier := none, pageRange := none, citedby_count := none,
    openaccess := Json.str "0" }

/-!
Theorems.
-/

/-- Successful `mapExc` produces one output per input, in order, each the
image of the input at the same position. -/
theorem mapExc_ok {α β : Type} (f : α → Except PyErr β) :
    ∀ {xs : List α} {ys : List β}, mapExc f xs = Except.ok ys →
      ys.length = xs.length ∧
      ∀ i (hx : i < xs.length) (hy : i < ys.length),
        f (xs.get ⟨i, hx⟩) = Except.ok (ys.get ⟨i, hy⟩) := by
  intro xs
  induction xs with
  | nil =>
    intro ys h
    simp only [mapExc, Except.ok.injEq] at h
    subst h
    exact ⟨rfl, fun i hx hy => absurd hx (by simp)⟩
  | cons x xs ih =>
    intro ys h
    cases hfx : f x with
    | error e => simp [mapExc, hfx] at h
    | ok y =>
      cases hrest : mapExc f xs with
      | error e => simp [mapExc, hfx, hrest] at h
      | ok zs =>
        simp only [mapExc, hfx, hrest, Except.ok.injEq] at h
        subst h
        obtain ⟨hlen, hget⟩ := ih hrest
        refine ⟨by simp [hlen], ?_⟩
        intro i hx hy
        cases i with
        | zero => exact hfx
        | succ i =>
          exact hget i (Nat.lt_of_succ_lt_succ hx) (Nat.lt_of_succ_lt_succ hy)

/-- C1 (code bug): a single raw item missing a required field
(`dc:title` here) makes the whole `results` access fail with an uncaught
`KeyError`, although the well-formed item after it maps fine on its own —
the error is not isolated to the malformed item, no `MalformedItemError`
per item exists. -/
theorem results_aborts_on_missing_required_field :
    results [exItemNoTitle, exItemGood] = Except.error PyErr.keyError ∧
    mapDocument exItemGood = Except.ok exDocGood :=
  ⟨rfl, rfl⟩

/-- C2: when the mapper returns a record list, it has exactly one record
per stored raw item, and the record at each position is the image of the
raw item at the same position. -/
theorem results_preserves_length_and_order (items : List Json)
    (out : List Document) (h : results items = Except.ok out) :
    out.length = items.length ∧
    ∀ i (hx : i < items.length) (hy : i < out.length),
      mapDocument (items.get ⟨i, hx⟩) = Except.ok (out.get ⟨i, hy⟩) :=
  mapExc_ok mapDocument h

/-- Witness for C2 on a concrete two-item store. -/
theorem results_preserves_length_and_order_witness :
    ([exDocGood, exDocNoAuthor] : List Document).length
      = ([exItemGood, exItemNoAuthor] : List Json).length ∧
    mapDocument exItemNoAuthor = Except.ok exDocNoAuthor := by
  have h := results_preserves_length_and_order
    [exItemGood, exItemNoAuthor] [exDocGood, exDocNoAuthor] rfl
  exact ⟨h.1, h.2 1 (by decide) (by decide)⟩

/-- C7: `get_eids` returns the `eid` field of every stored item, one per
item, in stored order. -/
theorem get_eids_projects_eids_in_order (items : List Json)
    (es : List Json) (h : get_eids items = Except.ok es) :
    es.length = items.length ∧
    ∀ i (hx : i < items.length) (hy : i < es.length),
      pyGetItem (items.get ⟨i, hx⟩) "eid" = Except.ok (es.get ⟨i, hy⟩) :=
  mapExc_ok _ h

/-- Witness for C7 on a concrete two-item store. -/
theorem get_eids_projects_eids_in_order_witness :
    ([Json.str "2-s2.0-1", Json.str "2-s2.0-2"] : List Json).length
      = ([exItemGood, exItemNoAuthor] : List Json).length ∧
    pyGetItem exItemGood "eid" = Except.ok (Json.str "2-s2.0-1") := by
  have h := get_eids_projects_eids_in_order
    [exItemGood, exItemNoAuthor] [Json.str "2-s2.0-1", Json.str "2-s2.0-2"] rfl
  exact ⟨h.1, h.2 0 (by decide) (by decide)⟩

/-- C8: the deprecated `EIDS` accessor returns exactly the value of
`get_eids` and additionally emits one deprecation warning. -/
theorem EIDS_is_alias_of_get_eids (items : List Json) :
    (EIDS items).2 = get_eids items ∧ (EIDS items).1.length = 1 :=
  ⟨rfl, rfl⟩

/-- When the author derivation fails with `KeyError` and the item still
maps, the resulting document has all three derived fields absent and
every other field a direct projection of the item. -/
theorem mapDocument_of_authorFail {item : Json}
    (hfail : deriveAuthorFields item = Except.error PyErr.keyError)
    {d : Document} (h : mapDocument item = Except.ok d) :
    ∃ eid title oa,
      pyGetItem item "eid" = Except.ok eid ∧
      pyGetItem item "dc:title" = Except.ok title ∧
      pyGetItem item "openaccess" = Except.ok oa ∧
      d = { eid := eid, doi := jsonGetOpt item "prism:doi",
            pii := jsonGetOpt item "pii", title := title,
            subtype := jsonGetOpt item "subtype",
            creator := jsonGetOpt item "dc:creator",
            authname := none, authid := none, afid := none,
            coverDate := jsonGetOpt item "prism:coverDate",
            coverDisplayDate := jsonGetOpt item "prism:coverDisplayDate",
            publicationName := jsonGetOpt item "prism:publicationName",
            issn := jsonGetOpt item "prism:issn",
            source_id := jsonGetOpt item "source-id",
            aggregationType := jsonGetOpt item "prism:aggregationType",
            volume := jsonGetOpt item "prism:volume",
            issueIdentifier := jsonGetOpt item "prism:issueIdentifier",
            pageRange := jsonGetOpt item "prism:pageRange",
            citedby_count := jsonGetOpt item "citedby-count",
            openaccess := oa } := by
  have hcaught : authorFieldsCaught item = Except.ok (none, none, none) := by
    simp [authorFieldsCaught, hfail]
  cases h1 : pyGetItem item "eid" with
  | error e => simp [mapDocument, hcaught, h1] at h
  | ok eid =>
    cases h2 : pyGetItem item "dc:title" with
    | error e => simp [mapDocument, hcaught, h1, h2] at h
    | ok title =>
      cases h3 : pyGetItem item "openaccess" with
      | error e => simp [mapDocument, hcaught, h1, h2, h3] at h
      | ok oa =>
        refine ⟨eid, title, oa, rfl, rfl, rfl, ?_⟩
        simp only [mapDocument, hcaught, h1, h2, h3, Except.ok.injEq] at h
        exact h.symm

/-- C3: an item whose author derivation hits a lookup failure (for
instance a missing author list) still maps, with `authname`, `authid`
and `afid` all absent, all its other fields the usual projections, and
every other item of the batch mapped exactly as it would be on its own. -/
theorem author_failure_isolated (items : List Json) (out : List Document)
    (i : Nat) (hi : i < items.length)
    (hfail : deriveAuthorFields (items.get ⟨i, hi⟩) = Except.error PyErr.keyError)
    (hres : results items = Except.ok out) (ho : i < out.length) :
    ((out.get ⟨i, ho⟩).authname = none ∧ (out.get ⟨i, ho⟩).authid = none ∧
      (out.get ⟨i, ho⟩).afid = none) ∧
    (∃ eid title oa,
      pyGetItem (items.get ⟨i, hi⟩) "eid" = Except.ok eid ∧
      pyGetItem (items.get ⟨i, hi⟩) "dc:title" = Except.ok title ∧
      pyGetItem (items.get ⟨i, hi⟩) "openaccess" = Except.ok oa ∧
      out.get ⟨i, ho⟩ =
        { eid := eid, doi := jsonGetOpt (items.get ⟨i, hi⟩) "prism:doi",
          pii := jsonGetOpt (items.get ⟨i, hi⟩) "pii", title := title,
          subtype := jsonGetOpt (items.get ⟨i, hi⟩) "subtype",
          creator := jsonGetOpt (items.get ⟨i, hi⟩) "dc:creator",
          authname := none, authid := none, afid := none,
          coverDate := jsonGetOpt (items.get ⟨i, hi⟩) "prism:coverDate",
          coverDisplayDate := jsonGetOpt (items.get ⟨i, hi⟩) "prism:coverDisplayDate",
          publicationName := jsonGetOpt (items.get ⟨i, hi⟩) "prism:publicationName",
          issn := jsonGetOpt (items.get ⟨i, hi⟩) "prism:issn",
          source_id := jsonGetOpt (items.get ⟨i, hi⟩) "source-id",
          aggregationType := jsonGetOpt (items.get ⟨i, hi⟩) "prism:aggregationType",
          volume := jsonGetOpt (items.get ⟨i, hi⟩) "prism:volume",
          issueIdentifier := jsonGetOpt (items.get ⟨i, hi⟩) "prism:issueIdentifier",
          pageRange := jsonGetOpt (items.get ⟨i, hi⟩) "prism:pageRange",
          citedby_count := jsonGetOpt (items.get ⟨i, hi⟩) "citedby-count",
          openaccess := oa }) ∧
    ∀ j (hj : j < items.length) (hjo : j < out.length),
      mapDocument (items.get ⟨j, hj⟩) = Except.ok (out.get ⟨j, hjo⟩) := by
  obtain ⟨hlen, hget⟩ := mapExc_ok mapDocument hres
  have hmap := hget i hi ho
  obtain ⟨eid, title, oa, h1, h2, h3, hd⟩ := mapDocument_of_authorFail hfail hmap
  refine ⟨?_, ⟨eid, title, oa, h1, h2, h3, hd⟩, hget⟩
  rw [hd]
  exact ⟨rfl, rfl, rfl⟩

/-- Witness for C3: the middle item of three has no author list; its
record has the three derived fields absent, and the item after it still
maps to its own record. -/
theorem author_failure_isolated_witness :
    (exDocNoAuthor.authname = none ∧ exDocNoAuthor.authid = none ∧
      exDocNoAuthor.afid = none) ∧
    mapDocument exItemDup = Except.ok exDocDup := by
  have h := author_failure_isolated [exItemGood, exItemNoAuthor, exItemDup]
    [exDocGood, exDocNoAuthor, exDocDup] 1 (by decide) rfl rfl (by decide)
  exact ⟨h.1, h.2.2 2 (by decide) (by decide)⟩

/-- `dedupLoop` only ever appends: the result is the accumulator followed
by a subsequence of the remaining input. -/
theorem dedupLoop_eq_append (l : List Json) :
    ∀ acc, ∃ t, dedupLoop acc l = acc ++ t ∧ t.Sublist l := by
  induction l with
  | nil => intro acc; exact ⟨[], by simp [dedupLoop]⟩
  | cons i rest ih =>
    intro acc
    by_cases hc : acc.any (fun a => pyEq a i) = true
    · obtain ⟨t, ht, hs⟩ := ih acc
      exact ⟨t, by simp [dedupLoop, hc, ht], hs.cons i⟩
    · obtain ⟨t, ht, hs⟩ := ih (acc ++ [i])
      refine ⟨i :: t, ?_, hs.cons₂ i⟩
      simp only [dedupLoop]
      rw [if_neg hc, ht, List.append_assoc, List.singleton_append]

/-- No element surviving `dedupLoop` is Python-equal to a later survivor. -/
theorem dedupLoop_pairwise (l : List Json) :
    ∀ acc, acc.Pairwise (fun a b => pyEq a b = false) →
      (dedupLoop acc l).Pairwise (fun a b => pyEq a b = false) := by
  induction l with
  | nil => intro acc h; simpa [dedupLoop] using h
  | cons i rest ih =>
    intro acc h
    by_cases hc : acc.any (fun a => pyEq a i) = true
    · simpa [dedupLoop, hc] using ih acc h
    · have hall : ∀ a ∈ acc, pyEq a i = false := by
        intro a ha
        cases hpe : pyEq a i with
        | false => rfl
        | true => exact absurd (List.any_eq_true.mpr ⟨a, ha, hpe⟩) hc
      simp only [dedupLoop]
      rw [if_neg hc]
      refine ih (acc ++ [i]) ?_
      rw [List.pairwise_append]
      exact ⟨h, List.pairwise_singleton _ i, by simpa using hall⟩

/-- Every input element is represented in the `dedupLoop` output, either
verbatim or through a Python-equal earlier occurrence. -/
theorem dedupLoop_covers (l : List Json) :
    ∀ acc x, x ∈ l →
      x ∈ dedupLoop acc l ∨ ∃ y ∈ dedupLoop acc l, pyEq y x = true := by
  induction l with
  | nil => intro acc x hx; cases hx
  | cons i rest ih =>
    intro acc x hx
    by_cases hc : acc.any (fun a => pyEq a i) = true
    · rw [List.mem_cons] at hx
      cases hx with
      | inl hx =>
        subst hx
        obtain ⟨a, ha, hpa⟩ := List.any_eq_true.mp hc
        obtain ⟨t, ht, -⟩ := dedupLoop_eq_append rest acc
        refine Or.inr ⟨a, ?_, hpa⟩
        simp only [dedupLoop, hc, if_true, ht, List.mem_append]
        exact Or.inl ha
      | inr hx =>
        simpa only [dedupLoop, hc, if_true] using ih acc x hx
    · rw [List.mem_cons] at hx
      cases hx with
      | inl hx =>
        subst hx
        obtain ⟨t, ht, -⟩ := dedupLoop_eq_append rest (acc ++ [x])
        refine Or.inl ?_
        simp only [dedupLoop]
        rw [if_neg hc, ht]
        simp
      | inr hx =>
        have := ih (acc ++ [i]) x hx
        simp only [dedupLoop]
        rw [if_neg hc]
        exact this

/-- C4: the mapper deduplicates the author list by Python structural
equality before deriving the three author fields: the deduplicated list
is a subsequence of the original (first occurrences, original order), no
two of its entries are equal, every original entry is represented, and
the derivation runs on exactly that deduplicated list. -/
theorem authors_deduplicated_before_derivation (item aj : Json)
    (l : List Json)
    (h1 : pyGetItem item "author" = Except.ok aj)
    (h2 : pyIter aj = Except.ok l) :
    (dedupLoop [] l).Sublist l ∧
    (dedupLoop [] l).Pairwise (fun a b => pyEq a b = false) ∧
    (∀ x ∈ l, x ∈ dedupLoop [] l ∨ ∃ y ∈ dedupLoop [] l, pyEq y x = true) ∧
    deriveAuthorFields item = deriveFromAuthors (dedupLoop [] l) := by
  refine ⟨?_, dedupLoop_pairwise l [] List.Pairwise.nil,
    fun x hx => dedupLoop_covers l [] x hx, ?_⟩
  · obtain ⟨t, ht, hs⟩ := dedupLoop_eq_append l []
    rw [ht]; simpa using hs
  · simp [deriveAuthorFields, h1, h2]

/-- Witness for C4: an author list with a verbatim duplicate; the
deduplicated list keeps one copy of each author, in order. -/
theorem authors_deduplicated_before_derivation_witness :
    (dedupLoop [] [exAuthorA, exAuthorA, exAuthorB]).Sublist
      [exAuthorA, exAuthorA, exAuthorB] ∧
    dedupLoop [] [exAuthorA, exAuthorA, exAuthorB] = [exAuthorA, exAuthorB] ∧
    deriveAuthorFields exItemDup =
      deriveFromAuthors (dedupLoop [] [exAuthorA, exAuthorA, exAuthorB]) := by
  have h := authors_deduplicated_before_derivation exItemDup
    (Json.mkArr [exAuthorA, exAuthorA, exAuthorB])
    [exAuthorA, exAuthorA, exAuthorB] rfl rfl
  exact ⟨h.1, rfl, h.2.2.2⟩

/-- C5: the derived `afid` string joins each author's affiliation ids
with `-` (first conjunct's inner statement: one author's group is the
`-`-join of its affiliation `$` values) and joins authors with `;`, and
an empty resulting string is normalised to absent. -/
theorem afid_join_format (item aj : Json) (l : List Json)
    (n i af : Option String) (groups : List String)
    (h1 : pyGetItem item "author" = Except.ok aj)
    (h2 : pyIter aj = Except.ok l)
    (hgs : mapExc affGroup (dedupLoop [] l) = Except.ok groups)
    (hd : deriveAuthorFields item = Except.ok (n, i, af)) :
    (af = if String.intercalate ";" groups = "" then none
          else some (String.intercalate ";" groups)) ∧
    ∀ (fields : JsonObj) (ids : JsonArr) (vals : List Json)
      (strs : List String),
      fields.lookup "afid" = some (Json.arr ids) →
      mapExc (fun d => pyGetItem d "$") ids.toList = Except.ok vals →
      mapExc pyStr vals = Except.ok strs →
      affGroup (Json.obj fields) = Except.ok (String.intercalate "-" strs) := by
  constructor
  · simp only [deriveAuthorFields, h1, h2] at hd
    cases hn : joinAuthField (dedupLoop [] l) "authname" ";" with
    | error e => simp [deriveFromAuthors, hn] at hd
    | ok ns =>
      cases hi : joinAuthField (dedupLoop [] l) "authid" ";" with
      | error e => simp [deriveFromAuthors, hn, hi] at hd
      | ok ids =>
        simp only [deriveFromAuthors, hn, hi, hgs, Except.ok.injEq,
          Prod.mk.injEq] at hd
        exact hd.2.2.symm
  · intro fields ids vals strs hf hv hs
    simp [affGroup, pyGet, hf, Json.isArr, pyIter, hv, hs, pyJoin]

/-- Witness for C5: two authors with affiliation ids 10, 20 and 30, 40;
one author's group is `10-20`, the item-level `afid` is `10-20;30-40`. -/
theorem afid_join_format_witness :
    ((some "10-20;30-40" : Option String) =
      if String.intercalate ";" ["10-20", "30-40"] = "" then none
      else some (String.intercalate ";" ["10-20", "30-40"])) ∧
    affGroup exAuthorA = Except.ok (String.intercalate "-" ["10", "20"]) := by
  have h := afid_join_format exItemGood (Json.mkArr [exAuthorA, exAuthorB])
    [exAuthorA, exAuthorB] (some "Smith J.;Doe A.") (some "100;200")
    (some "10-20;30-40") ["10-20", "30-40"] rfl rfl rfl rfl
  refine ⟨h.1, ?_⟩
  exact h.2
    (JsonObj.ofList
      [("authname", Json.str "Smith J."), ("authid", Json.str "100"),
       ("afid", Json.mkArr [Json.mkObj [("$", Json.str "10")],
                            Json.mkObj [("$", Json.str "20")]])])
    (JsonArr.ofList [Json.mkObj [("$", Json.str "10")],
                     Json.mkObj [("$", Json.str "20")]])
    [Json.str "10", Json.str "20"] ["10", "20"] rfl rfl rfl

theorem intercalate_singleton (sep s : String) :
    String.intercalate sep [s] = s := rfl

/-- C10: an author whose `afid` field is a single object (not a list) is
treated as a one-element list: the affiliation group is computed as for
the singleton list, and a single `$` id becomes that author's group. -/
theorem single_afid_object_wrapped (fields : JsonObj) (j : Json)
    (hj : j.isArr = false) (hl : fields.lookup "afid" = some j) :
    affGroup (Json.obj fields) =
      affGroup (Json.mkObj [("afid", Json.mkArr [j])]) ∧
    ∀ (o : JsonObj) (v : Json) (s : String), j = Json.obj o →
      o.lookup "$" = some v → pyStr v = Except.ok s →
      affGroup (Json.obj fields) = Except.ok s := by
  constructor
  · simp [affGroup, pyGet, hl, hj, Json.mkObj, JsonObj.ofList,
      JsonObj.lookup, Json.mkArr, JsonArr.ofList]
    simp [Json.isArr]
  · intro o v s hjo hv hs
    subst hjo
    simp [affGroup, pyGet, hl, Json.isArr, pyIter, JsonArr.toList,
      mapExc, pyGetItem, hv, hs, pyJoin, intercalate_singleton]

/-- Witness for C10: an author whose `afid` is the single object
`{"$": "77"}` gets the group `77`. -/
theorem single_afid_object_wrapped_witness :
    affGroup (Json.mkObj [("afid", Json.mkObj [("$", Json.str "77")])]) =
      affGroup (Json.mkObj
        [("afid", Json.mkArr [Json.mkObj [("$", Json.str "77")]])]) ∧
    affGroup (Json.mkObj [("afid", Json.mkObj [("$", Json.str "77")])]) =
      Except.ok "77" := by
  have h := single_afid_object_wrapped
    (JsonObj.ofList [("afid", Json.mkObj [("$", Json.str "77")])])
    (Json.mkObj [("$", Json.str "77")]) rfl rfl
  exact ⟨h.1, h.2 (JsonObj.ofList [("$", Json.str "77")])
    (Json.str "77") "77" rfl rfl rfl⟩

/-- C6 (the retrieval loop itself is modelled from the spec, see
`retrieve`): when the total reported for a query exceeds the 5000
ceiling, retrieval fails with `ResultSetTooLargeError`, requests no page
beyond the first (offset 0), and performs no cache write. -/
theorem too_large_result_set_fails_without_cache_write
    (cache : Option (List Json)) (refresh : Bool)
    (fetchPage : Nat → List Json × Nat)
    (htotal : 5000 < (fetchPage 0).2)
    (hfetch : cache = none ∨ refresh = true) :
    (scopusRetrieve cache refresh fetchPage).result
        = Except.error FetchError.resultSetTooLarge ∧
    (scopusRetrieve cache refresh fetchPage).cacheAfter = cache ∧
    (scopusRetrieve cache refresh fetchPage).offsetsRequested = [0] := by
  have hbranch : scopusRetrieve cache refresh fetchPage =
      ⟨Except.error FetchError.resultSetTooLarge, cache, [0]⟩ := by
    cases hfetch with
    | inl h =>
      subst h
      cases refresh <;> simp [scopusRetrieve, retrieve, htotal]
    | inr h =>
      subst h
      cases cache <;> simp [scopusRetrieve, retrieve, htotal]
  rw [hbranch]
  exact ⟨rfl, rfl, rfl⟩

/-- Witness for C6: an empty cache and a first page reporting 5001 total
results. -/
theorem too_large_result_set_witness :
    (scopusRetrieve none false (fun _ => ([], 5001))).result
        = Except.error FetchError.resultSetTooLarge ∧
    (scopusRetrieve none false (fun _ => ([], 5001))).cacheAfter = none ∧
    (scopusRetrieve none false (fun _ => ([], 5001))).offsetsRequested
        = [0] :=
  too_large_result_set_fails_without_cache_write none false
    (fun _ => ([], 5001)) (by decide) (Or.inl rfl)

/-- C9: the cache file path is the cache root followed by the MD5 digest
of the query's UTF-8 bytes; it depends on the query only through those
bytes, and the digest function agrees with the MD5 reference value on a
known test vector. -/
theorem cache_key_is_md5_of_query (root q : String) :
    qfile root q = root ++ "/" ++ md5hex (utf8Bytes q) ∧
    (∀ r, utf8Bytes q = utf8Bytes r → qfile root q = qfile root r) ∧
    md5hex (utf8Bytes "abc") = "900150983cd24fb0d6963f7d28e17f72" := by
  refine ⟨rfl, fun r h => ?_, ?_⟩
  · simp [qfile, h]
  · set_option maxRecDepth 10000 in decide

/-- Witness for C9 with the query the spec uses in its end-to-end
scenario. -/
theorem cache_key_is_md5_of_query_witness :
    qfile ".scopus/search_scoups" "AUTHOR-NAME(Smith)" =
      qfile ".scopus/search_scoups" "AUTHOR-NAME(Smith)" ∧
    md5hex (utf8Bytes "abc") = "900150983cd24fb0d6963f7d28e17f72" := by
  have h := cache_key_is_md5_of_query ".scopus/search_scoups"
    "AUTHOR-NAME(Smith)"
  exact ⟨h.2.1 "AUTHOR-NAME(Smith)" rfl, h.2.2⟩
